import Mathlib

/-!
Verification of the CIRA mobile offline submission queue and sync engine.

The definitions below are a shallow embedding of:
  - the retry policy and sync pass (`mobile/lib/sync.ts`: MAX_RETRIES,
    RETRY_DELAYS, getRetryDelay, shouldRetry, syncSingleReport,
    syncPendingReports),
  - the queue store (`mobile/lib/storage.ts`: addToSyncQueue, getSyncQueue,
    removeFromSyncQueue, updateSyncQueueItem),
  - the coordinating hook (`mobile/hooks/useOfflineSync.ts`: performSync,
    syncNow, modelled with React useState semantics: an invoked callback
    reads the values captured at the render that created it, and a set-call
    updates only the state the next render will expose),
  - the duplicate reconciliation block of
    `mobile/components/ReportFormModal.tsx` (handleSubmit).

Conventions of the embedding:
  - JavaScript timestamps (`Date.now()`) are naturals (milliseconds); a time
    difference is computed in `Int` as in JS number arithmetic.  Time is held
    fixed during a pass (the code calls `Date.now()` repeatedly; nothing
    proved here depends on the clock advancing within a pass).
  - Geographic coordinates are rationals (JS numbers; float rounding is not
    modelled, the arithmetic is exact).
  - The async-storage key/value cell backing the queue is a `KV` record: the
    parsed content of the `sync_queue` key plus two flags saying whether the
    next read / write succeeds.  A JS `throw` of a storage error is
    `Except.error`.
  - JS truthiness matters in two places and is modelled explicitly:
    `!item.lastAttempt` (absent OR zero) and `error.message || default`
    (absent OR empty string).
-/

/-- `reportData` payload of a queue item (storage.ts, SyncQueueItem.reportData). -/
structure ReportData where
  title : String
  description : String
  type : String
  severity : String
  latitude : ℚ
  longitude : ℚ
  addressText : Option String := none
  province : Option String := none
  district : Option String := none
  sector : Option String := none
deriving DecidableEq

/-- One entry of the offline sync queue (storage.ts, interface SyncQueueItem). -/
structure SyncQueueItem where
  id : String
  reportData : ReportData
  photos : List String
  retryCount : Nat
  createdAt : Nat
  lastAttempt : Option Nat := none
  error : Option String := none
deriving DecidableEq

/-- sync.ts: `const MAX_RETRIES = 5`. -/
def MAX_RETRIES : Nat := 5

/-- sync.ts: `const RETRY_DELAYS = [60000, 120000, 240000, 480000]` (ms). -/
def RETRY_DELAYS : List Nat := [60000, 120000, 240000, 480000]

/-- sync.ts `getRetryDelay`: index into RETRY_DELAYS, clamped to the last entry. -/
def getRetryDelay (retryCount : Nat) : Nat :=
  if retryCount ≥ RETRY_DELAYS.length then
    RETRY_DELAYS.getD (RETRY_DELAYS.length - 1) 0
  else
    RETRY_DELAYS.getD retryCount 0

/-- JS truthiness of an optional numeric field: `!x` is `true` exactly when the
field is absent (`undefined`) or equal to `0`. -/
def jsFalsyNum : Option Nat → Bool
  | none => true
  | some t => t == 0

/-- sync.ts `shouldRetry`: retry budget check, then the JS-falsy
`!item.lastAttempt` check, then the backoff-window check
`Date.now() - item.lastAttempt >= delay` (JS number subtraction, hence `Int`). -/
def shouldRetry (now : Nat) (item : SyncQueueItem) : Bool :=
  if item.retryCount ≥ MAX_RETRIES then
    false
  else if jsFalsyNum item.lastAttempt then
    true
  else
    decide ((now : Int) - (item.lastAttempt.getD 0 : Int) ≥ (getRetryDelay item.retryCount : Int))

/-- Modelled from the spec: the backoff schedule exactly as the spec words it —
`schedule(0..3) = [60s, 120s, 240s, 480s]` and `schedule(k) = 480s` for `k ≥ 4`
(in milliseconds).  Used only to compare the code's `getRetryDelay` against the
spec's schedule. -/
def scheduleSpec (k : Nat) : Nat :=
  if k = 0 then 60000
  else if k = 1 then 120000
  else if k = 2 then 240000
  else 480000

/-- Modelled from the spec: eligibility exactly as the claim words it —
`retryCount < maxRetries AND (lastAttemptAt is absent OR now − lastAttemptAt ≥
scheduleDelay(retryCount))`. Used only to compare against `shouldRetry`. -/
def specEligible (now : Nat) (k : Nat) (t : Option Nat) : Bool :=
  decide (k < MAX_RETRIES) &&
    (match t with
     | none => true
     | some t0 => decide ((now : Int) - (t0 : Int) ≥ (scheduleSpec k : Int)))

/-- The error a failed persistence operation throws (storage.ts rethrows the
underlying AsyncStorage error). -/
inductive StorageError where
  | err
deriving DecidableEq

/-- The AsyncStorage cell holding the `sync_queue` key: its parsed content plus
whether a read (`getItem`) and a write (`setItem`) against it succeed. -/
structure KV where
  stored : List SyncQueueItem
  readOk : Bool
  writeOk : Bool
deriving DecidableEq

/-- storage.ts `getSyncQueue`: parse the stored blob; a read failure is caught
and swallowed, returning the default `[]`. -/
def getSyncQueue (kv : KV) : List SyncQueueItem :=
  if kv.readOk then kv.stored else []

/-- `AsyncStorage.setItem(SYNC_QUEUE_KEY, ...)`: replace the stored queue, or
throw when the write fails (in the throwing case the stored state is untouched,
which the model reflects by returning no new `KV`). -/
def setSyncQueue (kv : KV) (q : List SyncQueueItem) : Except StorageError KV :=
  if kv.writeOk then .ok { kv with stored := q } else .error .err

/-- storage.ts `addToSyncQueue`: read the queue (read failures swallowed into
`[]`), push a fresh item with `retryCount := 0`, write back.  The generated id
and `Date.now()` are parameters. -/
def addToSyncQueue (kv : KV) (reportData : ReportData) (photos : List String)
    (newId : String) (now : Nat) : Except StorageError (KV × String) :=
  let queue := getSyncQueue kv
  let item : SyncQueueItem :=
    { id := newId, reportData := reportData, photos := photos,
      retryCount := 0, createdAt := now }
  match setSyncQueue kv (queue ++ [item]) with
  | .ok kv' => .ok (kv', newId)
  | .error e => .error e

/-- Queue-level effect of storage.ts `removeFromSyncQueue`:
`queue.filter(item => item.id !== id)`. -/
def removeList (q : List SyncQueueItem) (id : String) : List SyncQueueItem :=
  q.filter (fun item => item.id != id)

/-- storage.ts `removeFromSyncQueue`: read (failures swallowed), filter, write. -/
def removeFromSyncQueue (kv : KV) (id : String) : Except StorageError KV :=
  setSyncQueue kv (removeList (getSyncQueue kv) id)

/-- The partial update object passed to `updateSyncQueueItem` by the sync code:
only these three fields are ever written (`some` = key present in the JS
object, overriding on spread). -/
structure ItemUpdates where
  retryCount : Option Nat := none
  lastAttempt : Option Nat := none
  error : Option String := none
deriving DecidableEq

/-- JS object spread `{ ...item, ...updates }` for the fields sync writes. -/
def mergeItem (item : SyncQueueItem) (u : ItemUpdates) : SyncQueueItem :=
  { item with
    retryCount := u.retryCount.getD item.retryCount,
    lastAttempt := match u.lastAttempt with | some t => some t | none => item.lastAttempt,
    error := match u.error with | some e => some e | none => item.error }

/-- Queue-level effect of storage.ts `updateSyncQueueItem` when the id is
found: `queue[index] = { ...queue[index], ...updates }` at the first index
matching `findIndex`. -/
def updateFirst (u : ItemUpdates) (id : String) : List SyncQueueItem → List SyncQueueItem
  | [] => []
  | item :: rest =>
      if item.id == id then mergeItem item u :: rest
      else item :: updateFirst u id rest

/-- storage.ts `updateSyncQueueItem`: read (failures swallowed), `findIndex`;
when the id is absent nothing is written and no error is raised. -/
def updateSyncQueueItem (kv : KV) (id : String) (u : ItemUpdates) : Except StorageError KV :=
  let queue := getSyncQueue kv
  if queue.any (fun item => item.id == id) then
    setSyncQueue kv (updateFirst u id queue)
  else
    .ok kv

/-- The shape of an axios-style error as sync.ts inspects it: `error.code`,
`error.message` (the empty string models an absent message, matching JS
falsiness of `undefined`), and whether `error.response` is present. -/
structure ApiError where
  code : String
  message : String
  hasResponse : Bool
deriving DecidableEq

/-- `charsInclude hay nd` is true when `nd` occurs as a contiguous segment of
`hay`. -/
def charsInclude (needle : List Char) : List Char → Bool
  | [] => needle.isEmpty
  | c :: rest => needle.isPrefixOf (c :: rest) || charsInclude needle rest

/-- JS `haystack.includes(needle)` on strings. -/
def stringIncludes (haystack needle : String) : Bool :=
  charsInclude needle.toList haystack.toList

/-- JS `s || dflt` for a string that may be absent/empty. -/
def jsStringOr (s dflt : String) : String :=
  if s == "" then dflt else s

/-- sync.ts `syncSingleReport` error classification: `ECONNABORTED`,
`ECONNREFUSED`, a message containing `Network Error` or `timeout`, or no
`response` object at all. -/
def isNetworkError (e : ApiError) : Bool :=
  e.code == "ECONNABORTED" ||
  e.code == "ECONNREFUSED" ||
  stringIncludes e.message "Network Error" ||
  stringIncludes e.message "timeout" ||
  !e.hasResponse

/-- Return value of `syncSingleReport`: `{ success, error? }`. -/
structure SyncResult where
  success : Bool
  error : Option String := none
deriving DecidableEq

/-- The environment a pass runs in: the result of the i-th `isOnline()` call,
the outcome `apiClient.createReport` would give for an item's payload, and the
clock.  Photo uploads never touch the queue (their failures are caught and
logged inside `syncSingleReport`), so they are not modelled. -/
structure SyncEnv where
  online : Nat → Bool
  remote : SyncQueueItem → Except ApiError Unit
  now : Nat

/-- sync.ts `syncSingleReport`, acting on the live queue value (persistence is
taken as available during a pass; the storage-level `KV` operations it calls
reduce to `removeList` / `updateFirst`, see the bridge lemmas).  `i` is the
index of the `isOnline()` call this invocation performs. -/
def syncSingleReport (env : SyncEnv) (i : Nat) (q : List SyncQueueItem)
    (item : SyncQueueItem) : List SyncQueueItem × SyncResult :=
  if !(env.online i) then
    (q, { success := false, error := some "Offline" })
  else if !(shouldRetry env.now item) then
    (q, { success := false, error := some "Max retries exceeded" })
  else
    match env.remote item with
    | .ok _ =>
        (removeList q item.id, { success := true })
    | .error e =>
        if isNetworkError e then
          (updateFirst
            { retryCount := some (item.retryCount + 1),
              lastAttempt := some env.now,
              error := some (jsStringOr e.message "Network error") } item.id q,
           { success := false, error := some "Network error - will retry" })
        else
          (removeList q item.id,
           { success := false, error := some (jsStringOr e.message "Validation error") })

/-- Return value of `syncPendingReports`: `{ synced, failed, skipped }`. -/
structure PassResult where
  synced : Nat
  failed : Nat
  skipped : Nat
deriving DecidableEq

/-- The `for (const item of queue)` loop body of sync.ts `syncPendingReports`:
iterate over the pass-start snapshot, threading the live queue, the
`isOnline()` call counter and the counters. -/
def syncPassLoop (env : SyncEnv) : List SyncQueueItem → Nat → List SyncQueueItem →
    PassResult → List SyncQueueItem × PassResult
  | [], _, q, acc => (q, acc)
  | item :: rest, i, q, acc =>
      if !(shouldRetry env.now item) then
        syncPassLoop env rest i q { acc with skipped := acc.skipped + 1 }
      else
        let result := syncSingleReport env i q item
        if result.2.success then
          syncPassLoop env rest (i + 1) result.1 { acc with synced := acc.synced + 1 }
        else
          syncPassLoop env rest (i + 1) result.1 { acc with failed := acc.failed + 1 }

/-- sync.ts `syncPendingReports`: snapshot the queue, run the loop, return the
final live queue together with the counters. -/
def syncPendingReports (env : SyncEnv) (q : List SyncQueueItem) :
    List SyncQueueItem × PassResult :=
  syncPassLoop env q 0 q { synced := 0, failed := 0, skipped := 0 }

/-- The fate `syncPendingReports` assigns to one snapshot item: skipped by the
retry policy, blocked by the per-item offline check, synced (server
acknowledged, entry removed), retained after a network-class error, or removed
after any other error.  Bookkeeping mirroring the loop, used to state what the
counters count and what happens to each item. -/
inductive ItemOutcome where
  | skipped
  | failedOffline
  | synced
  | failedRetained (e : ApiError)
  | failedRemoved (e : ApiError)
deriving DecidableEq

/-- The fates the loop counts in `failed`: every unsuccessful attempt. -/
def isFailedOutcome : ItemOutcome → Bool
  | .failedOffline => true
  | .failedRetained _ => true
  | .failedRemoved _ => true
  | _ => false

/-- Classify one snapshot item, following the checks of the loop and of
`syncSingleReport` in source order; `i` is the index of the `isOnline()` call
the item triggers when eligible. -/
def classifyItem (env : SyncEnv) (i : Nat) (item : SyncQueueItem) : ItemOutcome :=
  if !(shouldRetry env.now item) then .skipped
  else if !(env.online i) then .failedOffline
  else
    match env.remote item with
    | .ok _ => .synced
    | .error e => if isNetworkError e then .failedRetained e else .failedRemoved e

/-- The update object `syncSingleReport` writes on a network-class error for
snapshot item `x`. -/
def bumpUpdates (env : SyncEnv) (x : SyncQueueItem) (e : ApiError) : ItemUpdates :=
  { retryCount := some (x.retryCount + 1), lastAttempt := some env.now,
    error := some (jsStringOr e.message "Network error") }

/-- Each snapshot item paired with its fate, threading the `isOnline()` call
counter exactly as the loop does (one call per eligible item). -/
def passOutcomes (env : SyncEnv) : List SyncQueueItem → Nat →
    List (SyncQueueItem × ItemOutcome)
  | [], _ => []
  | item :: rest, i =>
      (item, classifyItem env i item) ::
        passOutcomes env rest (if shouldRetry env.now item then i + 1 else i)

/-- Effect of snapshot item `x`'s fate on a live entry `w` carrying its id. -/
def applyOutcomeTo (env : SyncEnv) (x w : SyncQueueItem) : ItemOutcome → Option SyncQueueItem
  | .skipped => some w
  | .failedOffline => some w
  | .synced => none
  | .failedRetained e => some (mergeItem w (bumpUpdates env x e))
  | .failedRemoved _ => none

/-- Effect of a whole pass on one live entry: the fate of the first snapshot
item carrying the entry's id, or the identity when no snapshot item does. -/
def applyPass (env : SyncEnv) (outcomes : List (SyncQueueItem × ItemOutcome))
    (w : SyncQueueItem) : Option SyncQueueItem :=
  match outcomes.find? (fun p => p.1.id == w.id) with
  | none => some w
  | some p => applyOutcomeTo env p.1 w p.2

/-- The `useOfflineSync` flags the single-flight guards read: the connectivity
flag and the `isSyncing` flag. -/
structure HookState where
  isConnected : Bool
  isSyncing : Bool
deriving DecidableEq

/-- React `useState` semantics for the hook's flags.  `isSyncing` and
`isConnected` are `useState` values: an invoked callback reads the values of
the render it was created in (`rendered`), while a `setIsSyncing` call updates
only the state the *next* render will expose (`pending`) — it never mutates
the values already captured by existing closures. -/
structure RenderState where
  rendered : HookState
  pending : HookState
deriving DecidableEq

/-- A React re-render: the callbacks recreated by `useCallback` now capture
the pending state. -/
def rerender (s : RenderState) : RenderState :=
  { s with rendered := s.pending }

/-- useOfflineSync `performSync`, entry portion, under useState semantics: the
guard `if (!isConnected || isSyncing) return;` reads the captured values, and
`setIsSyncing(true)` is a deferred update to the next render's state.  The
boolean reports whether a pass was started. -/
def performSyncEnter (s : RenderState) : RenderState × Bool :=
  if !s.rendered.isConnected || s.rendered.isSyncing then (s, false)
  else ({ s with pending := { s.pending with isSyncing := true } }, true)

/-- useOfflineSync `performSync`, `finally` clause: a deferred
`setIsSyncing(false)`. -/
def performSyncExit (s : RenderState) : RenderState :=
  { s with pending := { s.pending with isSyncing := false } }

/-- useOfflineSync `syncNow`: `if (isSyncing) return;` against the captured
value, then `performSync()`. -/
def syncNow (s : RenderState) : RenderState × Bool :=
  if s.rendered.isSyncing then (s, false) else performSyncEnter s

/-- The hook's state after mount while online and idle: captured and pending
flags agree. -/
def hookStart : RenderState :=
  { rendered := { isConnected := true, isSyncing := false },
    pending := { isConnected := true, isSyncing := false } }

/-- The just-submitted report's fields as the dedup block of
`ReportFormModal.handleSubmit` reads them. -/
structure SubmittedReport where
  title : String
  description : String
  type : String
  latitude : ℚ
  longitude : ℚ
deriving DecidableEq

/-- The matching predicate of the dedup block.  The source computes
`Math.sqrt(dlat^2 + dlng^2) * 111000 < 10`; over the reals this is equivalent
to `(dlat^2 + dlng^2) * 111000^2 < 100` (proved in
`matchesDuplicate_iff_sqrt`), which keeps the predicate computable over ℚ. -/
def matchesDuplicate (sub : SubmittedReport) (item : SyncQueueItem) : Bool :=
  decide (((item.reportData.latitude - sub.latitude) ^ 2 +
           (item.reportData.longitude - sub.longitude) ^ 2) * 111000 ^ 2 < 100) &&
  (item.reportData.title == sub.title) &&
  (item.reportData.description == sub.description) &&
  (item.reportData.type == sub.type)

/-- The dedup block of `ReportFormModal.handleSubmit`: filter the queue by the
matching rule, then `removeFromSyncQueue` each match in order (each removal
filters the then-current queue by that match's id). -/
def reconcileDedup (sub : SubmittedReport) (q : List SyncQueueItem) : List SyncQueueItem :=
  let matchingItems := q.filter (fun item => matchesDuplicate sub item)
  matchingItems.foldl (fun acc item => removeList acc item.id) q

/-- Fixed report payload used by the concrete inputs below. -/
def sampleData : ReportData :=
  { title := "Pothole", description := "Deep hole", type := "pothole",
    severity := "high", latitude := -2, longitude := 30 }

/-- Concrete queue item "a": fresh, never attempted. -/
def itemA : SyncQueueItem :=
  { id := "a", reportData := sampleData, photos := [], retryCount := 0, createdAt := 0 }

/-- Concrete queue item "b": fresh, never attempted. -/
def itemB : SyncQueueItem :=
  { id := "b", reportData := sampleData, photos := [], retryCount := 0, createdAt := 0 }

/-- Concrete queue item "c": fresh, never attempted. -/
def itemC : SyncQueueItem :=
  { id := "c", reportData := sampleData, photos := [], retryCount := 0, createdAt := 0 }

/-- Concrete queue item whose retry budget is exhausted and that was never
attempted. -/
def itemExhausted : SyncQueueItem :=
  { id := "x", reportData := sampleData, photos := [], retryCount := 5, createdAt := 0 }

/-- Concrete queue item with `lastAttempt = some 0` (present but JS-falsy). -/
def itemZeroAttempt : SyncQueueItem :=
  { id := "z", reportData := sampleData, photos := [], retryCount := 0, createdAt := 0,
    lastAttempt := some 0 }

/-- Environment: always online, every submission succeeds. -/
def envAllOk : SyncEnv :=
  { online := fun _ => true, remote := fun _ => .ok (), now := 1000000 }

/-- Environment: the first `isOnline()` call reports offline, every later one
reports online; every submission succeeds. -/
def envReconnect : SyncEnv :=
  { online := fun i => decide (i ≠ 0), remote := fun _ => .ok (), now := 1000000 }

/-- A 400-style rejection: a response was received, not a network error. -/
def validationError : ApiError :=
  { code := "", message := "Bad Request", hasResponse := true }

/-- An axios timeout: `code = ECONNABORTED`, no response. -/
def timeoutError : ApiError :=
  { code := "ECONNABORTED", message := "timeout of 5000ms exceeded", hasResponse := false }

/-- Environment: online, every submission is rejected with a validation error. -/
def envValidation : SyncEnv :=
  { online := fun _ => true, remote := fun _ => .error validationError, now := 1000000 }

/-- Environment: online, every submission times out. -/
def envTimeout : SyncEnv :=
  { online := fun _ => true, remote := fun _ => .error timeoutError, now := 1000000 }

/-- Storage cell holding `[itemA]` whose reads fail (writes would succeed). -/
def kvReadFail : KV := { stored := [itemA], readOk := false, writeOk := true }

/-- Storage cell holding `[itemA]` whose writes fail. -/
def kvWriteFail : KV := { stored := [itemA], readOk := true, writeOk := false }

/-- Storage cell holding `[itemA]` with working persistence. -/
def kvGood : KV := { stored := [itemA], readOk := true, writeOk := true }

/-- A just-submitted report textually identical to `sampleData` at the same
coordinates. -/
def subMatch : SubmittedReport :=
  { title := "Pothole", description := "Deep hole", type := "pothole",
    latitude := -2, longitude := 30 }

/-- Environment: connectivity reported false at every check. -/
def envOffline : SyncEnv :=
  { online := fun _ => false, remote := fun _ => .ok (), now := 1000000 }

/-- A payload textually different from `sampleData`. -/
def dataOther : ReportData :=
  { title := "Broken streetlight", description := "Lamp out", type := "streetlight",
    severity := "low", latitude := -2, longitude := 30 }

/-- Concrete queue item that does not match `subMatch` (different text). -/
def itemOther : SyncQueueItem :=
  { id := "o", reportData := dataOther, photos := [], retryCount := 0, createdAt := 0 }

/-- `itemB` as it stands after one timed-out attempt under `envTimeout`. -/
def itemBTimedOut : SyncQueueItem :=
  { id := "b", reportData := sampleData, photos := [], retryCount := 1, createdAt := 0,
    lastAttempt := some 1000000, error := some "timeout of 5000ms exceeded" }

example : getRetryDelay 0 = 60000 := by decide
example : getRetryDelay 3 = 480000 := by decide
example : getRetryDelay 9 = 480000 := by decide
example : shouldRetry 0 { id := "a", reportData := sampleData, photos := [], retryCount := 0, createdAt := 0 } = true := by decide
example : shouldRetry 0 { id := "a", reportData := sampleData, photos := [], retryCount := 5, createdAt := 0 } = false := by decide
example : shouldRetry 0 { id := "a", reportData := sampleData, photos := [], retryCount := 0, createdAt := 0, lastAttempt := some 0 } = true := by decide
example : isNetworkError { code := "", message := "Bad Request", hasResponse := true } = false := by decide
example : isNetworkError { code := "", message := "timeout of 5000ms exceeded", hasResponse := true } = true := by decide

/-- The code's clamped delay table agrees with the spec's schedule at every
retry count. -/
theorem getRetryDelay_eq_scheduleSpec (k : Nat) : getRetryDelay k = scheduleSpec k := by
  match k with
  | 0 => rfl
  | 1 => rfl
  | 2 => rfl
  | 3 => rfl
  | n + 4 =>
      show getRetryDelay (n + 4) = scheduleSpec (n + 4)
      have h1 : getRetryDelay (n + 4) = 480000 := by
        unfold getRetryDelay
        rw [if_pos (by simp [RETRY_DELAYS])]
        rfl
      have h2 : scheduleSpec (n + 4) = 480000 := by
        unfold scheduleSpec
        rw [if_neg (by omega), if_neg (by omega), if_neg (by omega)]
      rw [h1, h2]

/-- Membership in the queue after `removeFromSyncQueue`'s filter. -/
theorem mem_removeList {q : List SyncQueueItem} {id : String} {it : SyncQueueItem} :
    it ∈ removeList q id ↔ it ∈ q ∧ it.id ≠ id := by
  simp [removeList, List.mem_filter, bne_iff_ne]

/-- Anything in the queue after `updateFirst` is either an untouched original
or the merge of an original whose id matched. -/
theorem mem_updateFirst {u : ItemUpdates} {id : String} {q : List SyncQueueItem}
    {it' : SyncQueueItem} (h : it' ∈ updateFirst u id q) :
    it' ∈ q ∨ ∃ w, w ∈ q ∧ w.id = id ∧ it' = mergeItem w u := by
  induction q with
  | nil => simp [updateFirst] at h
  | cons a rest ih =>
      by_cases ha : a.id == id
      · simp only [updateFirst, if_pos ha, List.mem_cons] at h
        rcases h with h | h
        · exact .inr ⟨a, List.mem_cons_self a rest, beq_iff_eq.mp ha, h⟩
        · exact .inl (List.mem_cons_of_mem a h)
      · simp only [updateFirst, if_neg ha, List.mem_cons] at h
        rcases h with h | h
        · exact .inl (h ▸ List.mem_cons_self a rest)
        · rcases ih h with h' | ⟨w, hw, hwid, hit⟩
          · exact .inl (List.mem_cons_of_mem a h')
          · exact .inr ⟨w, List.mem_cons_of_mem a hw, hwid, hit⟩

/-- `updateFirst` never drops an item whose id differs from the target. -/
theorem updateFirst_mem_of_ne {u : ItemUpdates} {id : String} {q : List SyncQueueItem}
    {z : SyncQueueItem} (hz : z ∈ q) (hne : z.id ≠ id) : z ∈ updateFirst u id q := by
  induction q with
  | nil => simp at hz
  | cons a rest ih =>
      rcases List.mem_cons.mp hz with rfl | hz'
      · have hfalse : ¬((z.id == id) = true) := fun hc => hne (beq_iff_eq.mp hc)
        simp only [updateFirst]
        rw [if_neg hfalse]
        exact List.mem_cons_self z _
      · by_cases ha : a.id == id
        · simp only [updateFirst, if_pos ha]
          exact List.mem_cons_of_mem _ hz'
        · simp only [updateFirst, if_neg ha]
          exact List.mem_cons_of_mem a (ih hz')

/-- When the queue's ids are pairwise distinct, `updateFirst` is the pointwise
map that rewrites exactly the entries carrying the target id. -/
theorem updateFirst_eq_map {u : ItemUpdates} {id : String} {q : List SyncQueueItem}
    (h : (q.map (fun it => it.id)).Nodup) :
    updateFirst u id q = q.map (fun it => if it.id == id then mergeItem it u else it) := by
  induction q with
  | nil => rfl
  | cons a rest ih =>
      rw [List.map_cons, List.nodup_cons] at h
      obtain ⟨hnotin, hrest⟩ := h
      by_cases ha : a.id == id
      · have haid : a.id = id := beq_iff_eq.mp ha
        simp only [updateFirst, if_pos ha, List.map_cons, ha, if_pos]
        have : ∀ it ∈ rest, (if it.id == id then mergeItem it u else it) = it := by
          intro it hit
          have hne : ¬(it.id == id) = true := by
            intro hcontra
            exact hnotin (haid ▸ beq_iff_eq.mp hcontra ▸ List.mem_map_of_mem (fun x => x.id) hit)
          rw [if_neg hne]
        rw [List.map_congr_left this]
        simp
      · simp only [updateFirst, if_neg ha, List.map_cons, ha, if_neg, ih hrest]
        simp

/-- The queue after one `syncSingleReport` call is the old queue, the old queue
with the item's id filtered out, or the old queue with the first entry carrying
the item's id merged with the retry-bump update. -/
theorem syncSingleReport_queue_cases (env : SyncEnv) (i : Nat) (q : List SyncQueueItem)
    (item : SyncQueueItem) :
    (syncSingleReport env i q item).1 = q ∨
    (syncSingleReport env i q item).1 = removeList q item.id ∨
    ∃ u : ItemUpdates, u.retryCount = some (item.retryCount + 1) ∧
      (syncSingleReport env i q item).1 = updateFirst u item.id q := by
  unfold syncSingleReport
  by_cases hon : env.online i
  · by_cases hel : shouldRetry env.now item
    · cases hr : env.remote item with
      | ok v =>
          right; left
          simp [hon, hel, hr]
      | error e =>
          by_cases hnet : isNetworkError e
          · right; right
            refine ⟨{ retryCount := some (item.retryCount + 1),
                      lastAttempt := some env.now,
                      error := some (jsStringOr e.message "Network error") }, rfl, ?_⟩
            simp [hon, hel, hr, hnet]
          · right; left
            simp [hon, hel, hr, hnet]
    · left; simp [hon, hel]
  · left; simp [hon]

/-- One `syncSingleReport` call never drops or rewrites an entry whose id
differs from the processed item's. -/
theorem syncSingleReport_preserves {env : SyncEnv} {i : Nat} {q : List SyncQueueItem}
    {item z : SyncQueueItem} (hz : z ∈ q) (hne : z.id ≠ item.id) :
    z ∈ (syncSingleReport env i q item).1 := by
  rcases syncSingleReport_queue_cases env i q item with h | h | ⟨u, _, h⟩
  · rw [h]; exact hz
  · rw [h]; exact mem_removeList.mpr ⟨hz, hne⟩
  · rw [h]; exact updateFirst_mem_of_ne hz hne

/-- Every entry surviving one `syncSingleReport` call is either an original of
the queue, or carries the processed item's id with retry count bumped to the
processed item's count plus one. -/
theorem syncSingleReport_origin (env : SyncEnv) (i : Nat) (q : List SyncQueueItem)
    (item : SyncQueueItem) {it' : SyncQueueItem}
    (h : it' ∈ (syncSingleReport env i q item).1) :
    it' ∈ q ∨ (it'.id = item.id ∧ it'.retryCount = item.retryCount + 1) := by
  rcases syncSingleReport_queue_cases env i q item with hq | hq | ⟨u, hu, hq⟩
  · rw [hq] at h; exact .inl h
  · rw [hq] at h; exact .inl (mem_removeList.mp h).1
  · rw [hq] at h
    rcases mem_updateFirst h with h' | ⟨w, _, hwid, rfl⟩
    · exact .inl h'
    · refine .inr ⟨?_, ?_⟩
      · simpa [mergeItem] using hwid
      · simp [mergeItem, hu]

/-- The three counters of a pass partition the snapshot: each snapshot item
bumps exactly one of them. -/
theorem syncPassLoop_counts (env : SyncEnv) (items : List SyncQueueItem) :
    ∀ (i : Nat) (q : List SyncQueueItem) (acc : PassResult),
      (syncPassLoop env items i q acc).2.synced + (syncPassLoop env items i q acc).2.failed +
          (syncPassLoop env items i q acc).2.skipped =
        acc.synced + acc.failed + acc.skipped + items.length := by
  induction items with
  | nil => intro i q acc; simp [syncPassLoop]
  | cons item rest ih =>
      intro i q acc
      by_cases hel : shouldRetry env.now item
      · by_cases hrs : (syncSingleReport env i q item).2.success
        · have hstep : syncPassLoop env (item :: rest) i q acc =
              syncPassLoop env rest (i + 1) (syncSingleReport env i q item).1
                { acc with synced := acc.synced + 1 } := by
            simp [syncPassLoop, hel, hrs]
          rw [hstep, ih]
          simp [List.length_cons]
          omega
        · have hstep : syncPassLoop env (item :: rest) i q acc =
              syncPassLoop env rest (i + 1) (syncSingleReport env i q item).1
                { acc with failed := acc.failed + 1 } := by
            simp [syncPassLoop, hel, hrs]
          rw [hstep, ih]
          simp [List.length_cons]
          omega
      · have hstep : syncPassLoop env (item :: rest) i q acc =
            syncPassLoop env rest i q { acc with skipped := acc.skipped + 1 } := by
          simp [syncPassLoop, hel]
        rw [hstep, ih]
        simp [List.length_cons]
        omega

/-- The `skipped` counter counts exactly the snapshot items the retry policy
rejects. -/
theorem syncPassLoop_skipped (env : SyncEnv) (items : List SyncQueueItem) :
    ∀ (i : Nat) (q : List SyncQueueItem) (acc : PassResult),
      (syncPassLoop env items i q acc).2.skipped =
        acc.skipped + items.countP (fun it => !(shouldRetry env.now it)) := by
  induction items with
  | nil => intro i q acc; simp [syncPassLoop]
  | cons item rest ih =>
      intro i q acc
      by_cases hel : shouldRetry env.now item
      · by_cases hrs : (syncSingleReport env i q item).2.success
        · have hstep : syncPassLoop env (item :: rest) i q acc =
              syncPassLoop env rest (i + 1) (syncSingleReport env i q item).1
                { acc with synced := acc.synced + 1 } := by
            simp [syncPassLoop, hel, hrs]
          rw [hstep, ih]
          simp [List.countP_cons, hel]
        · have hstep : syncPassLoop env (item :: rest) i q acc =
              syncPassLoop env rest (i + 1) (syncSingleReport env i q item).1
                { acc with failed := acc.failed + 1 } := by
            simp [syncPassLoop, hel, hrs]
          rw [hstep, ih]
          simp [List.countP_cons, hel]
      · have hstep : syncPassLoop env (item :: rest) i q acc =
            syncPassLoop env rest i q { acc with skipped := acc.skipped + 1 } := by
          simp [syncPassLoop, hel]
        rw [hstep, ih]
        simp [List.countP_cons, hel]
        omega

/-- An item of the live queue all of whose id-mates in the remaining snapshot
are ineligible survives the rest of the pass untouched. -/
theorem syncPassLoop_retain (env : SyncEnv) (items : List SyncQueueItem) :
    ∀ (i : Nat) (q : List SyncQueueItem) (acc : PassResult) (z : SyncQueueItem),
      z ∈ q →
      (∀ x ∈ items, x.id = z.id → shouldRetry env.now x = false) →
      z ∈ (syncPassLoop env items i q acc).1 := by
  induction items with
  | nil => intro i q acc z hz _; simpa [syncPassLoop] using hz
  | cons item rest ih =>
      intro i q acc z hz hids
      by_cases hel : shouldRetry env.now item
      · have hne : z.id ≠ item.id := by
          intro hcontra
          have := hids item (List.mem_cons_self item rest) hcontra.symm
          rw [this] at hel
          exact Bool.noConfusion hel
        by_cases hrs : (syncSingleReport env i q item).2.success
        · have hstep : syncPassLoop env (item :: rest) i q acc =
              syncPassLoop env rest (i + 1) (syncSingleReport env i q item).1
                { acc with synced := acc.synced + 1 } := by
            simp [syncPassLoop, hel, hrs]
          rw [hstep]
          exact ih _ _ _ _ (syncSingleReport_preserves hz hne)
            (fun x hx => hids x (List.mem_cons_of_mem item hx))
        · have hstep : syncPassLoop env (item :: rest) i q acc =
              syncPassLoop env rest (i + 1) (syncSingleReport env i q item).1
                { acc with failed := acc.failed + 1 } := by
            simp [syncPassLoop, hel, hrs]
          rw [hstep]
          exact ih _ _ _ _ (syncSingleReport_preserves hz hne)
            (fun x hx => hids x (List.mem_cons_of_mem item hx))
      · have hstep : syncPassLoop env (item :: rest) i q acc =
            syncPassLoop env rest i q { acc with skipped := acc.skipped + 1 } := by
          simp [syncPassLoop, hel]
        rw [hstep]
        exact ih _ _ _ _ hz (fun x hx => hids x (List.mem_cons_of_mem item hx))

/-- Invariant of the pass: every surviving entry descends from some snapshot
entry with the same id and a retry count that has not decreased. -/
theorem syncPassLoop_origin (env : SyncEnv) (items : List SyncQueueItem)
    (q0 : List SyncQueueItem) :
    ∀ (i : Nat) (q : List SyncQueueItem) (acc : PassResult),
      (∀ x ∈ items, x ∈ q0) →
      (∀ it' ∈ q, ∃ it, it ∈ q0 ∧ it.id = it'.id ∧ it.retryCount ≤ it'.retryCount) →
      ∀ it' ∈ (syncPassLoop env items i q acc).1,
        ∃ it, it ∈ q0 ∧ it.id = it'.id ∧ it.retryCount ≤ it'.retryCount := by
  induction items with
  | nil => intro i q acc _ hq it' hit'; exact hq it' (by simpa [syncPassLoop] using hit')
  | cons item rest ih =>
      intro i q acc hitems hq it' hit'
      by_cases hel : shouldRetry env.now item
      · have hq' : ∀ z ∈ (syncSingleReport env i q item).1,
            ∃ it, it ∈ q0 ∧ it.id = z.id ∧ it.retryCount ≤ z.retryCount := by
          intro z hzmem
          rcases syncSingleReport_origin env i q item hzmem with hz | ⟨hzid, hzrc⟩
          · exact hq z hz
          · exact ⟨item, hitems item (List.mem_cons_self item rest), hzid.symm, by omega⟩
        by_cases hrs : (syncSingleReport env i q item).2.success
        · have hstep : syncPassLoop env (item :: rest) i q acc =
              syncPassLoop env rest (i + 1) (syncSingleReport env i q item).1
                { acc with synced := acc.synced + 1 } := by
            simp [syncPassLoop, hel, hrs]
          rw [hstep] at hit'
          exact ih _ _ _ (fun x hx => hitems x (List.mem_cons_of_mem item hx)) hq' it' hit'
        · have hstep : syncPassLoop env (item :: rest) i q acc =
              syncPassLoop env rest (i + 1) (syncSingleReport env i q item).1
                { acc with failed := acc.failed + 1 } := by
            simp [syncPassLoop, hel, hrs]
          rw [hstep] at hit'
          exact ih _ _ _ (fun x hx => hitems x (List.mem_cons_of_mem item hx)) hq' it' hit'
      · have hstep : syncPassLoop env (item :: rest) i q acc =
            syncPassLoop env rest i q { acc with skipped := acc.skipped + 1 } := by
          simp [syncPassLoop, hel]
        rw [hstep] at hit'
        exact ih _ _ _ (fun x hx => hitems x (List.mem_cons_of_mem item hx)) hq it' hit'

/-- With connectivity reported false at every check, a pass leaves the queue
untouched, syncs nothing, and classifies every snapshot item as failed
(eligible, blocked by the per-item offline check) or skipped (ineligible). -/
theorem syncPassLoop_offline (env : SyncEnv) (hoff : ∀ j, env.online j = false)
    (items : List SyncQueueItem) :
    ∀ (i : Nat) (q : List SyncQueueItem) (acc : PassResult),
      syncPassLoop env items i q acc =
        (q, { synced := acc.synced,
              failed := acc.failed + items.countP (fun it => shouldRetry env.now it),
              skipped := acc.skipped + items.countP (fun it => !(shouldRetry env.now it)) }) := by
  induction items with
  | nil => intro i q acc; simp [syncPassLoop]
  | cons item rest ih =>
      intro i q acc
      by_cases hel : shouldRetry env.now item
      · have hsingle : syncSingleReport env i q item =
            (q, { success := false, error := some "Offline" }) := by
          unfold syncSingleReport
          rw [hoff i]
          simp
        have hstep : syncPassLoop env (item :: rest) i q acc =
            syncPassLoop env rest (i + 1) q { acc with failed := acc.failed + 1 } := by
          simp [syncPassLoop, hel, hsingle]
        rw [hstep, ih]
        simp [List.countP_cons, hel]
        omega
      · have hstep : syncPassLoop env (item :: rest) i q acc =
            syncPassLoop env rest i q { acc with skipped := acc.skipped + 1 } := by
          simp [syncPassLoop, hel]
        rw [hstep, ih]
        simp [List.countP_cons, hel]
        omega

/-- A chain of id-removals is one filter: an entry survives iff its id is not
among the removed ones. -/
theorem foldl_removeList (L : List SyncQueueItem) :
    ∀ q : List SyncQueueItem,
      L.foldl (fun acc item => removeList acc item.id) q =
        q.filter (fun it => !(L.any (fun m => it.id == m.id))) := by
  induction L with
  | nil => intro q; simp
  | cons m L' ih =>
      intro q
      rw [List.foldl_cons, ih, removeList, List.filter_filter]
      apply List.filter_congr
      intro it _
      simp [bne, Bool.not_or, Bool.and_comm]

/-- When ids are pairwise distinct, the dedup block removes exactly the
entries the matching rule selects. -/
theorem reconcileDedup_eq_filter (sub : SubmittedReport) (q : List SyncQueueItem)
    (hnd : (q.map (fun it => it.id)).Nodup) :
    reconcileDedup sub q = q.filter (fun it => !(matchesDuplicate sub it)) := by
  unfold reconcileDedup
  rw [foldl_removeList]
  apply List.filter_congr
  intro it hit
  have key : ((q.filter (fun item => matchesDuplicate sub item)).any
      (fun m => it.id == m.id)) = matchesDuplicate sub it := by
    by_cases hm : matchesDuplicate sub it
    · rw [hm]
      apply List.any_eq_true.mpr
      exact ⟨it, List.mem_filter.mpr ⟨hit, hm⟩, beq_self_eq_true it.id⟩
    · rw [Bool.eq_false_iff.mpr hm]
      apply Bool.eq_false_iff.mpr
      intro hany
      rcases List.any_eq_true.mp hany with ⟨m, hmmem, hmid⟩
      rcases List.mem_filter.mp hmmem with ⟨hmq, hmmatch⟩
      have : m = it := List.inj_on_of_nodup_map hnd hmq hit (beq_iff_eq.mp hmid).symm
      rw [this] at hmmatch
      exact hm hmmatch
  rw [key]

/-- The rational squared-distance comparison used by `matchesDuplicate` is
exactly the source's `Math.sqrt(dlat^2 + dlng^2) * 111000 < 10` over ℝ. -/
theorem distance_lt_iff_sqrt (dlat dlng : ℚ) :
    ((dlat ^ 2 + dlng ^ 2) * 111000 ^ 2 < 100) ↔
      Real.sqrt ((dlat : ℝ) ^ 2 + (dlng : ℝ) ^ 2) * 111000 < 10 := by
  have h1 : Real.sqrt ((dlat : ℝ) ^ 2 + (dlng : ℝ) ^ 2) * 111000 < 10 ↔
      Real.sqrt ((dlat : ℝ) ^ 2 + (dlng : ℝ) ^ 2) < 10 / 111000 := by
    rw [lt_div_iff₀ (by norm_num : (0 : ℝ) < 111000)]
  have h2 : Real.sqrt ((dlat : ℝ) ^ 2 + (dlng : ℝ) ^ 2) < 10 / 111000 ↔
      (dlat : ℝ) ^ 2 + (dlng : ℝ) ^ 2 < (10 / 111000) ^ 2 :=
    Real.sqrt_lt' (by norm_num)
  have h3 : ((dlat : ℝ) ^ 2 + (dlng : ℝ) ^ 2 < (10 / 111000) ^ 2) ↔
      ((dlat : ℝ) ^ 2 + (dlng : ℝ) ^ 2) * 111000 ^ 2 < 100 := by
    rw [div_pow, lt_div_iff₀ (by norm_num : (0 : ℝ) < (111000 : ℝ) ^ 2)]
    norm_num
  have h4 : ((dlat ^ 2 + dlng ^ 2) * 111000 ^ 2 < (100 : ℚ)) ↔
      ((dlat : ℝ) ^ 2 + (dlng : ℝ) ^ 2) * 111000 ^ 2 < 100 := by
    rw [show ((dlat : ℝ) ^ 2 + (dlng : ℝ) ^ 2) * 111000 ^ 2 =
        (((dlat ^ 2 + dlng ^ 2) * 111000 ^ 2 : ℚ) : ℝ) by push_cast; ring]
    exact_mod_cast Iff.rfl
  rw [h4, h3.symm, h2.symm, h1.symm]

/-- The dedup matching rule, read back as the source writes it: planar
distance (in sqrt form, over ℝ) under 10 meters and exact equality of title,
description and type. -/
theorem matchesDuplicate_iff_sqrt (sub : SubmittedReport) (item : SyncQueueItem) :
    matchesDuplicate sub item = true ↔
      (Real.sqrt (((item.reportData.latitude : ℝ) - (sub.latitude : ℝ)) ^ 2 +
            ((item.reportData.longitude : ℝ) - (sub.longitude : ℝ)) ^ 2) * 111000 < 10 ∧
        item.reportData.title = sub.title ∧
        item.reportData.description = sub.description ∧
        item.reportData.type = sub.type) := by
  unfold matchesDuplicate
  simp only [Bool.and_eq_true, decide_eq_true_eq, beq_iff_eq]
  rw [distance_lt_iff_sqrt (item.reportData.latitude - sub.latitude)
    (item.reportData.longitude - sub.longitude)]
  push_cast
  tauto

/-- `mergeItem` never changes the id. -/
theorem mergeItem_id (item : SyncQueueItem) (u : ItemUpdates) :
    (mergeItem item u).id = item.id := rfl

/-- The snapshot items are the first components of `passOutcomes`. -/
theorem passOutcomes_fst (env : SyncEnv) (items : List SyncQueueItem) :
    ∀ i : Nat, (passOutcomes env items i).map Prod.fst = items := by
  induction items with
  | nil => intro i; rfl
  | cons x rest ih =>
      intro i
      simp [passOutcomes, ih]

/-- A pair of `passOutcomes` carries a snapshot item. -/
theorem mem_passOutcomes_fst {env : SyncEnv} {items : List SyncQueueItem} {i : Nat}
    {p : SyncQueueItem × ItemOutcome} (h : p ∈ passOutcomes env items i) :
    p.1 ∈ items := by
  have hm := List.mem_map_of_mem Prod.fst h
  rwa [passOutcomes_fst env items i] at hm

/-- Every fate of `passOutcomes` is a `classifyItem` value of its item. -/
theorem mem_passOutcomes_classify (env : SyncEnv) :
    ∀ (items : List SyncQueueItem) (i : Nat) (p : SyncQueueItem × ItemOutcome),
      p ∈ passOutcomes env items i → ∃ j, p.2 = classifyItem env j p.1 := by
  intro items
  induction items with
  | nil => intro i p hp; simp [passOutcomes] at hp
  | cons x rest ih =>
      intro i p hp
      simp only [passOutcomes, List.mem_cons] at hp
      rcases hp with rfl | hp
      · exact ⟨i, rfl⟩
      · exact ih _ p hp

/-- When no snapshot item carries `wid`, the fate lookup misses. -/
theorem find?_passOutcomes_none {env : SyncEnv} {items : List SyncQueueItem} {i : Nat}
    {wid : String} (h : ∀ x ∈ items, x.id ≠ wid) :
    (passOutcomes env items i).find? (fun p => p.1.id == wid) = none := by
  apply List.find?_eq_none.mpr
  intro p hp
  simpa using h p.1 (mem_passOutcomes_fst hp)

/-- With pairwise-distinct snapshot ids, the fate lookup by an item's id finds
exactly that item's pair. -/
theorem find?_passOutcomes_self (env : SyncEnv) :
    ∀ (items : List SyncQueueItem) (i : Nat) (p : SyncQueueItem × ItemOutcome),
      (items.map (fun it => it.id)).Nodup → p ∈ passOutcomes env items i →
      (passOutcomes env items i).find? (fun r => r.1.id == p.1.id) = some p := by
  intro items
  induction items with
  | nil => intro i p _ hp; simp [passOutcomes] at hp
  | cons x rest ih =>
      intro i p hnd hp
      rw [List.map_cons, List.nodup_cons] at hnd
      obtain ⟨hx, hrest⟩ := hnd
      simp only [passOutcomes, List.mem_cons] at hp
      rcases hp with rfl | hp
      · show List.find? _ ((x, classifyItem env i x) :: _) = _
        simp [List.find?_cons]
      · have hpx : p.1 ∈ rest := mem_passOutcomes_fst hp
        have hne : (x.id == p.1.id) = false := by
          apply beq_eq_false_iff_ne.mpr
          intro hc
          exact hx (hc ▸ List.mem_map_of_mem (fun it => it.id) hpx)
        show List.find? _ ((x, classifyItem env i x) :: _) = _
        rw [List.find?_cons]
        simp only [hne, Bool.false_eq_true, if_false]
        exact ih _ p hrest hp

/-- A surviving entry produced by `applyPass` keeps the id of the live entry
it came from. -/
theorem applyPass_some_id {env : SyncEnv} {O : List (SyncQueueItem × ItemOutcome)}
    {w y : SyncQueueItem} (h : applyPass env O w = some y) : y.id = w.id := by
  unfold applyPass at h
  rcases hf : O.find? (fun p => p.1.id == w.id) with _ | pp
  · rw [hf] at h
    cases h
    rfl
  · rw [hf] at h
    rcases pp with ⟨x, o⟩
    cases o with
    | skipped => cases h; rfl
    | failedOffline => cases h; rfl
    | synced => exact absurd h (by simp [applyOutcomeTo])
    | failedRetained e =>
        simp only [applyOutcomeTo, Option.some.injEq] at h
        rw [← h, mergeItem_id]
    | failedRemoved e => exact absurd h (by simp [applyOutcomeTo])

/-- Pull a filter below a filterMap. -/
theorem filterMap_filter_queue (p : SyncQueueItem → Bool)
    (g : SyncQueueItem → Option SyncQueueItem) :
    ∀ L : List SyncQueueItem,
      (L.filter p).filterMap g = L.filterMap (fun w => if p w then g w else none) := by
  intro L
  induction L with
  | nil => rfl
  | cons a L ih =>
      by_cases hp : p a
      · simp [List.filter_cons, List.filterMap_cons, hp, ih]
      · simp [List.filter_cons, List.filterMap_cons, hp, ih]

/-- sync.ts `syncSingleReport` when the connectivity check fails. -/
theorem syncSingleReport_offline_eq {env : SyncEnv} {i : Nat}
    (q : List SyncQueueItem) (item : SyncQueueItem) (hoff : env.online i = false) :
    syncSingleReport env i q item = (q, { success := false, error := some "Offline" }) := by
  unfold syncSingleReport
  simp [hoff]

/-- sync.ts `syncSingleReport` when the submission is acknowledged. -/
theorem syncSingleReport_ok_eq {env : SyncEnv} {i : Nat} {v : Unit}
    (q : List SyncQueueItem) (item : SyncQueueItem) (hon : env.online i = true)
    (hel : shouldRetry env.now item = true) (hrem : env.remote item = .ok v) :
    syncSingleReport env i q item =
      (removeList q item.id, { success := true, error := none }) := by
  unfold syncSingleReport
  simp [hon, hel, hrem]

/-- sync.ts `syncSingleReport` on a network-class error. -/
theorem syncSingleReport_neterr_eq {env : SyncEnv} {i : Nat} {e : ApiError}
    (q : List SyncQueueItem) (item : SyncQueueItem) (hon : env.online i = true)
    (hel : shouldRetry env.now item = true) (hrem : env.remote item = .error e)
    (hnet : isNetworkError e = true) :
    syncSingleReport env i q item =
      (updateFirst (bumpUpdates env item e) item.id q,
       { success := false, error := some "Network error - will retry" }) := by
  unfold syncSingleReport
  simp [hon, hel, hrem, hnet, bumpUpdates]

/-- sync.ts `syncSingleReport` on any other error. -/
theorem syncSingleReport_othererr_eq {env : SyncEnv} {i : Nat} {e : ApiError}
    (q : List SyncQueueItem) (item : SyncQueueItem) (hon : env.online i = true)
    (hel : shouldRetry env.now item = true) (hrem : env.remote item = .error e)
    (hnet : isNetworkError e = false) :
    syncSingleReport env i q item =
      (removeList q item.id,
       { success := false, error := some (jsStringOr e.message "Validation error") }) := by
  unfold syncSingleReport
  simp [hon, hel, hrem, hnet]

/-- Pass effect on an entry whose id matches the head pair's item. -/
theorem applyPass_cons_hit {env : SyncEnv} {x w : SyncQueueItem} {o : ItemOutcome}
    {O : List (SyncQueueItem × ItemOutcome)} (h : (x.id == w.id) = true) :
    applyPass env ((x, o) :: O) w = applyOutcomeTo env x w o := by
  unfold applyPass
  rw [List.find?_cons]
  simp [h]

/-- Pass effect on an entry whose id misses the head pair's item. -/
theorem applyPass_cons_miss {env : SyncEnv} {x w : SyncQueueItem} {o : ItemOutcome}
    {O : List (SyncQueueItem × ItemOutcome)} (h : (x.id == w.id) = false) :
    applyPass env ((x, o) :: O) w = applyPass env O w := by
  unfold applyPass
  rw [List.find?_cons]
  simp [h]

/-- An entry no snapshot item targets is left alone by the pass effect. -/
theorem applyPass_outcomes_missing {env : SyncEnv} {items : List SyncQueueItem} {i : Nat}
    {w : SyncQueueItem} (h : ∀ x ∈ items, x.id ≠ w.id) :
    applyPass env (passOutcomes env items i) w = some w := by
  unfold applyPass
  rw [find?_passOutcomes_none h]

/-- The queue a pass leaves behind is the snapshot filtered-and-rewritten
entry by entry according to each item's fate: the live queue evolves exactly
as `applyPass` describes, provided snapshot and live ids are pairwise
distinct. -/
theorem syncPassLoop_filterMap (env : SyncEnv) :
    ∀ (items : List SyncQueueItem) (i : Nat) (L : List SyncQueueItem) (acc : PassResult),
      (items.map (fun it => it.id)).Nodup →
      (L.map (fun it => it.id)).Nodup →
      (syncPassLoop env items i L acc).1 =
        L.filterMap (applyPass env (passOutcomes env items i)) := by
  intro items
  induction items with
  | nil =>
      intro i L acc _ _
      have happ : applyPass env (passOutcomes env [] i) = some := by
        funext w
        rfl
      show L = L.filterMap (applyPass env (passOutcomes env [] i))
      rw [happ, List.filterMap_some]
  | cons x rest ih =>
      intro i L acc hitems hL
      rw [List.map_cons, List.nodup_cons] at hitems
      obtain ⟨hxid, hrest⟩ := hitems
      by_cases hel : shouldRetry env.now x
      · by_cases hon : env.online i
        · cases hr : env.remote x with
          | ok v =>
              have hout : passOutcomes env (x :: rest) i =
                  (x, ItemOutcome.synced) :: passOutcomes env rest (i + 1) := by
                simp [passOutcomes, hel, classifyItem, hon, hr]
              have hstep : syncPassLoop env (x :: rest) i L acc =
                  syncPassLoop env rest (i + 1) (removeList L x.id)
                    { acc with synced := acc.synced + 1 } := by
                simp [syncPassLoop, hel, syncSingleReport_ok_eq L x hon hel hr]
              have hLs : ((removeList L x.id).map (fun it => it.id)).Nodup :=
                ((List.filter_sublist L).map (fun it => it.id)).nodup hL
              rw [hstep, ih (i + 1) _ _ hrest hLs, hout, removeList, filterMap_filter_queue]
              apply List.filterMap_congr
              intro w hw
              by_cases hid : (x.id == w.id)
              · have hid2 : (w.id == x.id) = true := beq_iff_eq.mpr (beq_iff_eq.mp hid).symm
                rw [if_neg (by simp [bne, hid2]), applyPass_cons_hit hid]
                rfl
              · have hidF : (x.id == w.id) = false := by simpa using hid
                have hid2 : (w.id == x.id) = false :=
                  beq_eq_false_iff_ne.mpr (fun hc => (beq_eq_false_iff_ne.mp hidF) hc.symm)
                rw [if_pos (by simp [bne, hid2]), applyPass_cons_miss hidF]
          | error e =>
              by_cases hnet : isNetworkError e
              · have hout : passOutcomes env (x :: rest) i =
                    (x, ItemOutcome.failedRetained e) :: passOutcomes env rest (i + 1) := by
                  simp [passOutcomes, hel, classifyItem, hon, hr, hnet]
                have hstep : syncPassLoop env (x :: rest) i L acc =
                    syncPassLoop env rest (i + 1)
                      (updateFirst (bumpUpdates env x e) x.id L)
                      { acc with failed := acc.failed + 1 } := by
                  simp [syncPassLoop, hel, syncSingleReport_neterr_eq L x hon hel hr hnet]
                have hids : ((L.map (fun it =>
                    if it.id == x.id then mergeItem it (bumpUpdates env x e) else it)).map
                      (fun it => it.id)) = L.map (fun it => it.id) := by
                  rw [List.map_map]
                  apply List.map_congr_left
                  intro w _
                  by_cases hw : (w.id == x.id)
                  · simp [Function.comp, hw, mergeItem_id]
                  · simp [Function.comp, hw]
                have hLs : ((L.map (fun it =>
                    if it.id == x.id then mergeItem it (bumpUpdates env x e) else it)).map
                      (fun it => it.id)).Nodup := by
                  rw [hids]
                  exact hL
                rw [hstep, updateFirst_eq_map hL, ih (i + 1) _ _ hrest hLs, hout,
                  List.filterMap_map]
                apply List.filterMap_congr
                intro w hw
                by_cases hid : (x.id == w.id)
                · have hid2 : (w.id == x.id) = true := beq_iff_eq.mpr (beq_iff_eq.mp hid).symm
                  show applyPass env (passOutcomes env rest (i + 1))
                      (if (w.id == x.id) = true then mergeItem w (bumpUpdates env x e) else w) =
                    applyPass env ((x, ItemOutcome.failedRetained e) ::
                      passOutcomes env rest (i + 1)) w
                  rw [if_pos hid2, applyPass_cons_hit hid]
                  rw [applyPass_outcomes_missing (fun y hy hyeq => hxid (by
                    have hmem : y.id ∈ rest.map (fun it => it.id) :=
                      List.mem_map_of_mem (fun it => it.id) hy
                    rwa [hyeq, mergeItem_id, ← beq_iff_eq.mp hid] at hmem))]
                  rfl
                · have hidF : (x.id == w.id) = false := by simpa using hid
                  have hid2 : (w.id == x.id) = false :=
                    beq_eq_false_iff_ne.mpr (fun hc => (beq_eq_false_iff_ne.mp hidF) hc.symm)
                  show applyPass env (passOutcomes env rest (i + 1))
                      (if (w.id == x.id) = true then mergeItem w (bumpUpdates env x e) else w) =
                    applyPass env ((x, ItemOutcome.failedRetained e) ::
                      passOutcomes env rest (i + 1)) w
                  rw [if_neg (by simp [hid2]), applyPass_cons_miss hidF]
              · have hnetF : isNetworkError e = false := by simpa using hnet
                have hout : passOutcomes env (x :: rest) i =
                    (x, ItemOutcome.failedRemoved e) :: passOutcomes env rest (i + 1) := by
                  simp [passOutcomes, hel, classifyItem, hon, hr, hnetF]
                have hstep : syncPassLoop env (x :: rest) i L acc =
                    syncPassLoop env rest (i + 1) (removeList L x.id)
                      { acc with failed := acc.failed + 1 } := by
                  simp [syncPassLoop, hel, syncSingleReport_othererr_eq L x hon hel hr hnetF]
                have hLs : ((removeList L x.id).map (fun it => it.id)).Nodup :=
                  ((List.filter_sublist L).map (fun it => it.id)).nodup hL
                rw [hstep, ih (i + 1) _ _ hrest hLs, hout, removeList, filterMap_filter_queue]
                apply List.filterMap_congr
                intro w hw
                by_cases hid : (x.id == w.id)
                · have hid2 : (w.id == x.id) = true := beq_iff_eq.mpr (beq_iff_eq.mp hid).symm
                  rw [if_neg (by simp [bne, hid2]), applyPass_cons_hit hid]
                  rfl
                · have hidF : (x.id == w.id) = false := by simpa using hid
                  have hid2 : (w.id == x.id) = false :=
                    beq_eq_false_iff_ne.mpr (fun hc => (beq_eq_false_iff_ne.mp hidF) hc.symm)
                  rw [if_pos (by simp [bne, hid2]), applyPass_cons_miss hidF]
        · have honF : env.online i = false := by simpa using hon
          have hout : passOutcomes env (x :: rest) i =
              (x, ItemOutcome.failedOffline) :: passOutcomes env rest (i + 1) := by
            simp [passOutcomes, hel, classifyItem, honF]
          have hstep : syncPassLoop env (x :: rest) i L acc =
              syncPassLoop env rest (i + 1) L { acc with failed := acc.failed + 1 } := by
            simp [syncPassLoop, hel, syncSingleReport_offline_eq L x honF]
          rw [hstep, ih (i + 1) L _ hrest hL, hout]
          apply List.filterMap_congr
          intro w hw
          by_cases hid : (x.id == w.id)
          · rw [applyPass_cons_hit hid,
              applyPass_outcomes_missing (fun y hy hyeq => hxid (by
                have hmem : y.id ∈ rest.map (fun it => it.id) :=
                  List.mem_map_of_mem (fun it => it.id) hy
                rwa [hyeq, ← beq_iff_eq.mp hid] at hmem))]
            rfl
          · have hidF : (x.id == w.id) = false := by simpa using hid
            rw [applyPass_cons_miss hidF]
      · have helF : shouldRetry env.now x = false := by simpa using hel
        have hout : passOutcomes env (x :: rest) i =
            (x, ItemOutcome.skipped) :: passOutcomes env rest i := by
          simp [passOutcomes, helF, classifyItem]
        have hstep : syncPassLoop env (x :: rest) i L acc =
            syncPassLoop env rest i L { acc with skipped := acc.skipped + 1 } := by
          simp [syncPassLoop, helF]
        rw [hstep, ih i L _ hrest hL, hout]
        apply List.filterMap_congr
        intro w hw
        by_cases hid : (x.id == w.id)
        · rw [applyPass_cons_hit hid,
            applyPass_outcomes_missing (fun y hy hyeq => hxid (by
              have hmem : y.id ∈ rest.map (fun it => it.id) :=
                List.mem_map_of_mem (fun it => it.id) hy
              rwa [hyeq, ← beq_iff_eq.mp hid] at hmem))]
          rfl
        · have hidF : (x.id == w.id) = false := by simpa using hid
          rw [applyPass_cons_miss hidF]

/-- The `synced` and `failed` counters count exactly the corresponding fates
of the snapshot items. -/
theorem syncPassLoop_outcome_counts (env : SyncEnv) :
    ∀ (items : List SyncQueueItem) (i : Nat) (L : List SyncQueueItem) (acc : PassResult),
      (syncPassLoop env items i L acc).2.synced =
        acc.synced + (passOutcomes env items i).countP (fun p => p.2 == ItemOutcome.synced) ∧
      (syncPassLoop env items i L acc).2.failed =
        acc.failed + (passOutcomes env items i).countP (fun p => isFailedOutcome p.2) := by
  intro items
  induction items with
  | nil =>
      intro i L acc
      simp [syncPassLoop, passOutcomes]
  | cons x rest ih =>
      intro i L acc
      by_cases hel : shouldRetry env.now x
      · by_cases hon : env.online i
        · cases hr : env.remote x with
          | ok v =>
              have hout : passOutcomes env (x :: rest) i =
                  (x, ItemOutcome.synced) :: passOutcomes env rest (i + 1) := by
                simp [passOutcomes, hel, classifyItem, hon, hr]
              have hstep : syncPassLoop env (x :: rest) i L acc =
                  syncPassLoop env rest (i + 1) (removeList L x.id)
                    { acc with synced := acc.synced + 1 } := by
                simp [syncPassLoop, hel, syncSingleReport_ok_eq L x hon hel hr]
              rw [hstep, hout]
              obtain ⟨ihs, ihf⟩ := ih (i + 1) (removeList L x.id) { acc with synced := acc.synced + 1 }
              rw [ihs, ihf]
              simp [List.countP_cons, isFailedOutcome]
              omega
          | error e =>
              by_cases hnet : isNetworkError e
              · have hout : passOutcomes env (x :: rest) i =
                    (x, ItemOutcome.failedRetained e) :: passOutcomes env rest (i + 1) := by
                  simp [passOutcomes, hel, classifyItem, hon, hr, hnet]
                have hstep : syncPassLoop env (x :: rest) i L acc =
                    syncPassLoop env rest (i + 1)
                      (updateFirst (bumpUpdates env x e) x.id L)
                      { acc with failed := acc.failed + 1 } := by
                  simp [syncPassLoop, hel, syncSingleReport_neterr_eq L x hon hel hr hnet]
                rw [hstep, hout]
                obtain ⟨ihs, ihf⟩ := ih (i + 1) (updateFirst (bumpUpdates env x e) x.id L)
                  { acc with failed := acc.failed + 1 }
                rw [ihs, ihf]
                simp [List.countP_cons, isFailedOutcome]
                omega
              · have hnetF : isNetworkError e = false := by simpa using hnet
                have hout : passOutcomes env (x :: rest) i =
                    (x, ItemOutcome.failedRemoved e) :: passOutcomes env rest (i + 1) := by
                  simp [passOutcomes, hel, classifyItem, hon, hr, hnetF]
                have hstep : syncPassLoop env (x :: rest) i L acc =
                    syncPassLoop env rest (i + 1) (removeList L x.id)
                      { acc with failed := acc.failed + 1 } := by
                  simp [syncPassLoop, hel, syncSingleReport_othererr_eq L x hon hel hr hnetF]
                rw [hstep, hout]
                obtain ⟨ihs, ihf⟩ := ih (i + 1) (removeList L x.id) { acc with failed := acc.failed + 1 }
                rw [ihs, ihf]
                simp [List.countP_cons, isFailedOutcome]
                omega
        · have honF : env.online i = false := by simpa using hon
          have hout : passOutcomes env (x :: rest) i =
              (x, ItemOutcome.failedOffline) :: passOutcomes env rest (i + 1) := by
            simp [passOutcomes, hel, classifyItem, honF]
          have hstep : syncPassLoop env (x :: rest) i L acc =
              syncPassLoop env rest (i + 1) L { acc with failed := acc.failed + 1 } := by
            simp [syncPassLoop, hel, syncSingleReport_offline_eq L x honF]
          rw [hstep, hout]
          obtain ⟨ihs, ihf⟩ := ih (i + 1) L { acc with failed := acc.failed + 1 }
          rw [ihs, ihf]
          simp [List.countP_cons, isFailedOutcome]
          omega
      · have helF : shouldRetry env.now x = false := by simpa using hel
        have hout : passOutcomes env (x :: rest) i =
            (x, ItemOutcome.skipped) :: passOutcomes env rest i := by
          simp [passOutcomes, helF, classifyItem]
        have hstep : syncPassLoop env (x :: rest) i L acc =
            syncPassLoop env rest i L { acc with skipped := acc.skipped + 1 } := by
          simp [syncPassLoop, helF]
        rw [hstep, hout]
        obtain ⟨ihs, ihf⟩ := ih i L { acc with skipped := acc.skipped + 1 }
        rw [ihs, ihf]
        simp [List.countP_cons, isFailedOutcome]

/-- Unfold `applyPass` at a successful fate lookup. -/
theorem applyPass_eq_of_find {env : SyncEnv} {O : List (SyncQueueItem × ItemOutcome)}
    {w : SyncQueueItem} {p : SyncQueueItem × ItemOutcome}
    (h : O.find? (fun r => r.1.id == w.id) = some p) :
    applyPass env O w = applyOutcomeTo env p.1 w p.2 := by
  unfold applyPass
  rw [h]

/-- C1: refuted as stated.  An item with `lastAttempt = some 0` is *present*,
its backoff window (60 s at retry count 0) has not elapsed at `now = 0`, yet
`shouldRetry` deems it eligible, because the JS check `!item.lastAttempt`
treats the timestamp `0` as falsy.  `specEligible` is the claim's own
eligibility formula. -/
theorem c1_counterexample :
    shouldRetry 0 itemZeroAttempt = true ∧
    itemZeroAttempt.lastAttempt = some 0 ∧
    specEligible 0 itemZeroAttempt.retryCount itemZeroAttempt.lastAttempt = false := by
  refine ⟨by decide, rfl, by decide⟩

/-- C1 (amended): `shouldRetry` deems an item eligible iff `retryCount < 5`
and (`lastAttempt` is absent, or equal to `0` — which the JS falsy check
`!item.lastAttempt` conflates with absence — or `now − lastAttempt ≥
schedule(retryCount)`), with `schedule(0..3) = [60s, 120s, 240s, 480s]` and
`schedule(k) = 480s` for `k ≥ 4`. -/
theorem c1_amended_eligibility (now : Nat) (item : SyncQueueItem) :
    shouldRetry now item = true ↔
      (item.retryCount < MAX_RETRIES ∧
        (item.lastAttempt = none ∨ item.lastAttempt = some 0 ∨
          ∃ t, item.lastAttempt = some t ∧
            (now : Int) - (t : Int) ≥ (scheduleSpec item.retryCount : Int))) := by
  unfold shouldRetry
  by_cases hrc : item.retryCount ≥ MAX_RETRIES
  · rw [if_pos hrc]
    simp only [Bool.false_eq_true, false_iff]
    rintro ⟨h1, _⟩
    omega
  · rw [if_neg hrc]
    rcases hla : item.lastAttempt with _ | t
    · simp [jsFalsyNum, hla]
      omega
    · by_cases ht : t = 0
      · subst ht
        simp [jsFalsyNum, hla]
        omega
      · simp [jsFalsyNum, hla, ht, getRetryDelay_eq_scheduleSpec]
        intro _
        omega

/-- C2: refuted as stated.  An item with no `lastAttempt` but `retryCount = 5`
is *not* eligible: `shouldRetry` tests `retryCount >= MAX_RETRIES` before the
missing-`lastAttempt` check. -/
theorem c2_counterexample :
    itemExhausted.lastAttempt = none ∧ shouldRetry 1000000 itemExhausted = false := by
  exact ⟨rfl, by decide⟩

/-- C2 (amended): an item whose `lastAttempt` is absent is eligible provided
its `retryCount` is below `MAX_RETRIES`. -/
theorem c2_amended_fresh_item_eligible (now : Nat) (item : SyncQueueItem)
    (habs : item.lastAttempt = none) (hrc : item.retryCount < MAX_RETRIES) :
    shouldRetry now item = true := by
  unfold shouldRetry
  rw [if_neg (by omega), if_pos (by simp [jsFalsyNum, habs])]

/-- Witness for `c2_amended_fresh_item_eligible` at `itemA`, `now = 0`. -/
theorem c2_witness :
    itemA.lastAttempt = none ∧ itemA.retryCount < MAX_RETRIES ∧ shouldRetry 0 itemA = true :=
  ⟨rfl, by decide, c2_amended_fresh_item_eligible 0 itemA rfl (by decide)⟩

/-- C3: for an eligible, online item whose submission fails, a network-class
error updates the item in place (retry count bumped by one, `lastAttempt` set
to now, the message stored) and keeps it queued, while any other error removes
exactly the entries carrying the item's id. -/
theorem c3_failure_classification (env : SyncEnv) (i : Nat) (q : List SyncQueueItem)
    (item : SyncQueueItem) (e : ApiError)
    (hnd : (q.map (fun it => it.id)).Nodup) (hmem : item ∈ q)
    (hon : env.online i = true) (hel : shouldRetry env.now item = true)
    (hrem : env.remote item = .error e) :
    (isNetworkError e = true →
        (syncSingleReport env i q item).1 =
          q.map (fun it =>
            if it.id == item.id then
              { it with retryCount := item.retryCount + 1,
                        lastAttempt := some env.now,
                        error := some (jsStringOr e.message "Network error") }
            else it) ∧
        { item with retryCount := item.retryCount + 1,
                    lastAttempt := some env.now,
                    error := some (jsStringOr e.message "Network error") } ∈
          (syncSingleReport env i q item).1) ∧
    (isNetworkError e = false →
        (syncSingleReport env i q item).1 = removeList q item.id ∧
        ∀ it' ∈ (syncSingleReport env i q item).1, it'.id ≠ item.id) := by
  constructor
  · intro hnet
    have hq : (syncSingleReport env i q item).1 =
        updateFirst
          { retryCount := some (item.retryCount + 1), lastAttempt := some env.now,
            error := some (jsStringOr e.message "Network error") } item.id q := by
      unfold syncSingleReport
      simp [hon, hel, hrem, hnet]
    rw [hq, updateFirst_eq_map hnd]
    constructor
    · apply List.map_congr_left
      intro it _
      by_cases hid : it.id == item.id
      · rw [if_pos hid, if_pos hid]
        simp [mergeItem]
      · rw [if_neg hid, if_neg hid]
    · apply List.mem_map.mpr
      refine ⟨item, hmem, ?_⟩
      rw [if_pos (beq_self_eq_true item.id)]
      simp [mergeItem]
  · intro hnet
    have hq : (syncSingleReport env i q item).1 = removeList q item.id := by
      unfold syncSingleReport
      simp [hon, hel, hrem, hnet]
    refine ⟨hq, ?_⟩
    intro it' hit'
    rw [hq] at hit'
    exact (mem_removeList.mp hit').2

/-- Witness for `c3_failure_classification`: a timeout against the singleton
queue `[itemA]` leaves the item queued with its retry count bumped to 1. -/
theorem c3_witness :
    (syncSingleReport envTimeout 0 [itemA] itemA).1 =
      [itemA].map (fun it =>
        if it.id == itemA.id then
          { it with retryCount := itemA.retryCount + 1,
                    lastAttempt := some envTimeout.now,
                    error := some (jsStringOr timeoutError.message "Network error") }
        else it) :=
  ((c3_failure_classification envTimeout 0 [itemA] itemA timeoutError (by decide)
      (List.mem_cons_self itemA []) rfl (by decide) rfl).1 (by decide)).1

/-- C4: refuted as stated.  With connectivity false at the first check and
true afterwards, the pass is not aborted: the second queue item is submitted
and removed even though `isOnline()` returned false during the pass. -/
theorem c4_counterexample :
    envReconnect.online 0 = false ∧
    syncPendingReports envReconnect [itemA, itemB] =
      ([itemA], { synced := 1, failed := 1, skipped := 0 }) := by
  exact ⟨by decide, by decide⟩

/-- C4 (amended): the offline check is per item, not pass-aborting; when
connectivity is false at every check, no item is submitted, the queue is left
unchanged, every eligible item is counted failed and every ineligible item is
skipped — the pass continues over all items. -/
theorem c4_amended_offline_pass (env : SyncEnv) (q : List SyncQueueItem)
    (hoff : ∀ j, env.online j = false) :
    (syncPendingReports env q).1 = q ∧
    (syncPendingReports env q).2.synced = 0 ∧
    (syncPendingReports env q).2.failed = q.countP (fun it => shouldRetry env.now it) ∧
    (syncPendingReports env q).2.skipped = q.countP (fun it => !(shouldRetry env.now it)) := by
  unfold syncPendingReports
  rw [syncPassLoop_offline env hoff q 0 q _]
  simp

/-- Witness for `c4_amended_offline_pass` on a two-item queue under
`envOffline`. -/
theorem c4_witness :
    (syncPendingReports envOffline [itemA, itemExhausted]).1 = [itemA, itemExhausted] ∧
    (syncPendingReports envOffline [itemA, itemExhausted]).2.synced = 0 := by
  have h := c4_amended_offline_pass envOffline [itemA, itemExhausted] (fun _ => rfl)
  exact ⟨h.1, h.2.1⟩

/-- C5: the code violates the claim.  Two `syncNow()` calls in immediate
succession run in the same tick, so no re-render happens between them: both
closures read the stale captured `isSyncing = false`, both pass the guard in
`syncNow` and the guard in `performSync`, and both start a pass — overlapping
passes instead of the claimed dropped no-op.  The guard only takes effect for
a closure created by a later re-render (third conjunct). -/
theorem c5_stale_closure_double_start :
    (syncNow hookStart).2 = true ∧
    (syncNow ((syncNow hookStart).1)).2 = true ∧
    (syncNow (rerender ((syncNow hookStart).1))).2 = false := by
  decide

/-- C6: with pairwise-distinct ids, the post-success reconciliation removes
from the queue exactly the items whose title, description and type equal the
just-submitted report's and whose planar scaled distance
`sqrt(dlat^2 + dlng^2) * 111000` is strictly below 10; every match is removed
and nothing else is. -/
theorem c6_dedup_exact (sub : SubmittedReport) (q : List SyncQueueItem)
    (hnd : (q.map (fun it => it.id)).Nodup) :
    reconcileDedup sub q = q.filter (fun it => !(matchesDuplicate sub it)) ∧
    ∀ it ∈ q,
      (it ∈ reconcileDedup sub q ↔
        ¬(Real.sqrt (((it.reportData.latitude : ℝ) - (sub.latitude : ℝ)) ^ 2 +
              ((it.reportData.longitude : ℝ) - (sub.longitude : ℝ)) ^ 2) * 111000 < 10 ∧
          it.reportData.title = sub.title ∧
          it.reportData.description = sub.description ∧
          it.reportData.type = sub.type)) := by
  have hfe := reconcileDedup_eq_filter sub q hnd
  refine ⟨hfe, ?_⟩
  intro it hit
  rw [hfe, List.mem_filter, ← matchesDuplicate_iff_sqrt]
  simp [hit]

/-- Witness for `c6_dedup_exact`: the exact duplicate `itemA` is removed, the
textually different `itemOther` survives. -/
theorem c6_witness :
    reconcileDedup subMatch [itemA, itemOther] =
      [itemA, itemOther].filter (fun it => !(matchesDuplicate subMatch it)) :=
  (c6_dedup_exact subMatch [itemA, itemOther] (by decide)).1

/-- C7: refuted as stated.  An eligible item rejected with a validation error
is counted in `failed` yet is removed from the queue, so "every item counted
as failed remains in the queue" does not hold. -/
theorem c7_counterexample :
    syncPendingReports envValidation [itemC] =
      ([], { synced := 0, failed := 1, skipped := 0 }) := by
  decide

/-- C7 (amended): the three counters partition the snapshot, and the classes
mean what the claim says with one correction: every item counted as synced had
its submission acknowledged by the server and no entry with its id remains in
the queue; every item counted as skipped was ineligible under the retry policy
and is left in the queue unchanged; and every item counted as failed had an
unsuccessful attempt — after a network-class error it remains queued, updated
in place, after a failed connectivity check it remains queued unchanged, and
after any other error every entry with its id is removed. -/
theorem c7_amended_pass_accounting (env : SyncEnv) (q : List SyncQueueItem)
    (hnd : (q.map (fun it => it.id)).Nodup) :
    ((syncPendingReports env q).2.synced + (syncPendingReports env q).2.failed +
        (syncPendingReports env q).2.skipped = q.length) ∧
    ((syncPendingReports env q).2.skipped = q.countP (fun it => !(shouldRetry env.now it))) ∧
    ((syncPendingReports env q).2.synced =
        (passOutcomes env q 0).countP (fun p => p.2 == ItemOutcome.synced)) ∧
    ((syncPendingReports env q).2.failed =
        (passOutcomes env q 0).countP (fun p => isFailedOutcome p.2)) ∧
    (∀ it ∈ q, shouldRetry env.now it = false → it ∈ (syncPendingReports env q).1) ∧
    (∀ p ∈ passOutcomes env q 0,
        (p.2 = ItemOutcome.skipped ↔ shouldRetry env.now p.1 = false) ∧
        (p.2 = ItemOutcome.skipped → p.1 ∈ (syncPendingReports env q).1) ∧
        (p.2 = ItemOutcome.failedOffline → p.1 ∈ (syncPendingReports env q).1) ∧
        (p.2 = ItemOutcome.synced → ∀ y ∈ (syncPendingReports env q).1, y.id ≠ p.1.id) ∧
        (∀ e, p.2 = ItemOutcome.failedRetained e →
            mergeItem p.1 (bumpUpdates env p.1 e) ∈ (syncPendingReports env q).1) ∧
        (∀ e, p.2 = ItemOutcome.failedRemoved e →
            ∀ y ∈ (syncPendingReports env q).1, y.id ≠ p.1.id)) := by
  have hfinal : (syncPendingReports env q).1 =
      q.filterMap (applyPass env (passOutcomes env q 0)) :=
    syncPassLoop_filterMap env q 0 q { synced := 0, failed := 0, skipped := 0 } hnd hnd
  refine ⟨?_, ?_, ?_, ?_, ?_, ?_⟩
  · have h := syncPassLoop_counts env q 0 q { synced := 0, failed := 0, skipped := 0 }
    simpa [syncPendingReports] using h
  · have h := syncPassLoop_skipped env q 0 q { synced := 0, failed := 0, skipped := 0 }
    simpa [syncPendingReports] using h
  · have h := (syncPassLoop_outcome_counts env q 0 q
      { synced := 0, failed := 0, skipped := 0 }).1
    simpa [syncPendingReports] using h
  · have h := (syncPassLoop_outcome_counts env q 0 q
      { synced := 0, failed := 0, skipped := 0 }).2
    simpa [syncPendingReports] using h
  · intro it hit hinel
    unfold syncPendingReports
    apply syncPassLoop_retain env q 0 q _ it hit
    intro x hx hxid
    have hxit : x = it := List.inj_on_of_nodup_map hnd hx hit hxid
    rw [hxit]
    exact hinel
  · intro p hp
    have hp1q : p.1 ∈ q := mem_passOutcomes_fst hp
    have hfind := find?_passOutcomes_self env q 0 p hnd hp
    refine ⟨?_, ?_, ?_, ?_, ?_, ?_⟩
    · obtain ⟨j, hj⟩ := mem_passOutcomes_classify env q 0 p hp
      rw [hj]
      unfold classifyItem
      by_cases heli : shouldRetry env.now p.1
      · by_cases honj : env.online j
        · cases hrj : env.remote p.1 with
          | ok v => simp [heli, honj, hrj]
          | error e =>
              by_cases hnetj : isNetworkError e
              · simp [heli, honj, hrj, hnetj]
              · have hnetjF : isNetworkError e = false := by simpa using hnetj
                simp [heli, honj, hrj, hnetjF]
        · have honjF : env.online j = false := by simpa using honj
          simp [heli, honjF]
      · have heliF : shouldRetry env.now p.1 = false := by simpa using heli
        simp [heliF]
    · intro hsk
      have happ : applyPass env (passOutcomes env q 0) p.1 = some p.1 := by
        rw [applyPass_eq_of_find hfind, hsk]
        rfl
      rw [hfinal]
      exact List.mem_filterMap.mpr ⟨p.1, hp1q, happ⟩
    · intro ho
      have happ : applyPass env (passOutcomes env q 0) p.1 = some p.1 := by
        rw [applyPass_eq_of_find hfind, ho]
        rfl
      rw [hfinal]
      exact List.mem_filterMap.mpr ⟨p.1, hp1q, happ⟩
    · intro hsy y hy hyid
      rw [hfinal] at hy
      obtain ⟨w, hwq, hww⟩ := List.mem_filterMap.mp hy
      have hwid : y.id = w.id := applyPass_some_id hww
      have hwp : w = p.1 := List.inj_on_of_nodup_map hnd hwq hp1q (by rw [← hwid, hyid])
      rw [hwp, applyPass_eq_of_find hfind, hsy] at hww
      simp [applyOutcomeTo] at hww
    · intro e hre
      have happ : applyPass env (passOutcomes env q 0) p.1 =
          some (mergeItem p.1 (bumpUpdates env p.1 e)) := by
        rw [applyPass_eq_of_find hfind, hre]
        rfl
      rw [hfinal]
      exact List.mem_filterMap.mpr ⟨p.1, hp1q, happ⟩
    · intro e hrm y hy hyid
      rw [hfinal] at hy
      obtain ⟨w, hwq, hww⟩ := List.mem_filterMap.mp hy
      have hwid : y.id = w.id := applyPass_some_id hww
      have hwp : w = p.1 := List.inj_on_of_nodup_map hnd hwq hp1q (by rw [← hwid, hyid])
      rw [hwp, applyPass_eq_of_find hfind, hrm] at hww
      simp [applyOutcomeTo] at hww

/-- Witness for `c7_amended_pass_accounting` on a queue holding one eligible
item, which is synced and removed, and one exhausted item, which is skipped
and retained. -/
theorem c7_witness :
    (syncPendingReports envAllOk [itemA, itemExhausted]).2.synced +
        (syncPendingReports envAllOk [itemA, itemExhausted]).2.failed +
        (syncPendingReports envAllOk [itemA, itemExhausted]).2.skipped = 2 ∧
    itemExhausted ∈ (syncPendingReports envAllOk [itemA, itemExhausted]).1 ∧
    (∀ y ∈ (syncPendingReports envAllOk [itemA, itemExhausted]).1, y.id ≠ itemA.id) := by
  have h := c7_amended_pass_accounting envAllOk [itemA, itemExhausted] (by decide)
  refine ⟨by simpa using h.1, ?_, ?_⟩
  · exact (h.2.2.2.2.2 (itemExhausted, ItemOutcome.skipped) (by decide)).2.1 rfl
  · exact (h.2.2.2.2.2 (itemA, ItemOutcome.synced) (by decide)).2.2.2.1 rfl

/-- C8: refuted as stated.  The list operation does not propagate a read
failure: a failing read is swallowed and the default `[]` is returned, hiding
the stored items. -/
theorem c8_counterexample :
    kvReadFail.readOk = false ∧ kvReadFail.stored ≠ [] ∧ getSyncQueue kvReadFail = [] := by
  refine ⟨rfl, by decide, rfl⟩

/-- C8 (amended): append and remove propagate a StorageError whenever the
write fails (the stored queue is untouched, as no new state is produced);
update does so when a matching item exists (a missing id writes nothing, cf.
C10); but list swallows read failures and returns the empty default. -/
theorem c8_amended_storage_errors (kv : KV) (data : ReportData) (photos : List String)
    (nid : String) (now : Nat) (id : String) (u : ItemUpdates) :
    (kv.writeOk = false → addToSyncQueue kv data photos nid now = .error .err) ∧
    (kv.writeOk = false → removeFromSyncQueue kv id = .error .err) ∧
    (kv.writeOk = false → (getSyncQueue kv).any (fun it => it.id == id) = true →
        updateSyncQueueItem kv id u = .error .err) ∧
    (kv.readOk = false → getSyncQueue kv = []) := by
  refine ⟨?_, ?_, ?_, ?_⟩
  · intro hw
    unfold addToSyncQueue setSyncQueue
    simp [hw]
  · intro hw
    unfold removeFromSyncQueue setSyncQueue
    simp [hw]
  · intro hw hany
    unfold updateSyncQueueItem setSyncQueue
    simp [hw, hany]
  · intro hr
    unfold getSyncQueue
    simp [hr]

/-- Witness for `c8_amended_storage_errors` on the failing-write and
failing-read cells. -/
theorem c8_witness :
    removeFromSyncQueue kvWriteFail "a" = .error .err ∧ getSyncQueue kvReadFail = [] := by
  have h1 := c8_amended_storage_errors kvWriteFail sampleData [] "n" 0 "a" {}
  have h2 := c8_amended_storage_errors kvReadFail sampleData [] "n" 0 "a" {}
  exact ⟨h1.2.1 rfl, h2.2.2.2 rfl⟩

/-- C9: a fresh enqueue appends an item with `retryCount = 0` and keeps every
existing item; every entry surviving a pass descends from a snapshot entry
with the same id and a retry count that did not decrease; removal and dedup
reconciliation only ever delete entries, leaving survivors untouched. -/
theorem c9_retry_count_monotone :
    (∀ (kv : KV) (data : ReportData) (photos : List String) (nid : String) (now : Nat)
        (kv' : KV) (rid : String),
        addToSyncQueue kv data photos nid now = .ok (kv', rid) →
          kv'.stored = getSyncQueue kv ++
            [{ id := nid, reportData := data, photos := photos, retryCount := 0,
               createdAt := now }] ∧
          ∀ it ∈ getSyncQueue kv, it ∈ kv'.stored) ∧
    (∀ (env : SyncEnv) (q : List SyncQueueItem),
        ∀ it' ∈ (syncPendingReports env q).1,
          ∃ it, it ∈ q ∧ it.id = it'.id ∧ it.retryCount ≤ it'.retryCount) ∧
    (∀ (q : List SyncQueueItem) (id : String), ∀ it' ∈ removeList q id, it' ∈ q) ∧
    (∀ (sub : SubmittedReport) (q : List SyncQueueItem),
        ∀ it' ∈ reconcileDedup sub q, it' ∈ q) := by
  refine ⟨?_, ?_, ?_, ?_⟩
  · intro kv data photos nid now kv' rid h
    unfold addToSyncQueue setSyncQueue at h
    by_cases hw : kv.writeOk
    · simp [hw] at h
      obtain ⟨hkv, _⟩ := h
      constructor
      · rw [← hkv]
      · intro it hit
        rw [← hkv]
        exact List.mem_append_left _ hit
    · simp [hw] at h
  · intro env q it' hit'
    unfold syncPendingReports at hit'
    exact syncPassLoop_origin env q q 0 q { synced := 0, failed := 0, skipped := 0 }
      (fun x hx => hx) (fun z hz => ⟨z, hz, rfl, le_refl _⟩) it' hit'
  · intro q id it' h
    exact (mem_removeList.mp h).1
  · intro sub q it' h
    unfold reconcileDedup at h
    rw [foldl_removeList] at h
    exact (List.mem_filter.mp h).1

/-- Witness for `c9_retry_count_monotone`: the survivor of a timed-out pass on
`[itemB]` descends from `itemB` with retry count grown from 0 to 1. -/
theorem c9_witness :
    ∃ it, it ∈ [itemB] ∧ it.id = itemBTimedOut.id ∧
      it.retryCount ≤ itemBTimedOut.retryCount :=
  c9_retry_count_monotone.2.1 envTimeout [itemB] itemBTimedOut (by decide)

/-- C10: updating an id absent from the stored queue returns successfully with
the storage cell unchanged — no item is created or modified and the caller
gets no indication (the operation's result carries no applied/not-applied
information). -/
theorem c10_update_missing_id (kv : KV) (id : String) (u : ItemUpdates)
    (habs : ∀ it ∈ kv.stored, it.id ≠ id) :
    updateSyncQueueItem kv id u = .ok kv := by
  unfold updateSyncQueueItem
  have hany : ((getSyncQueue kv).any (fun item => item.id == id)) = false := by
    rw [List.any_eq_false]
    intro it hit
    unfold getSyncQueue at hit
    by_cases hr : kv.readOk
    · rw [if_pos hr] at hit
      simpa using habs it hit
    · rw [if_neg hr] at hit
      simp at hit
  simp [hany]

/-- Witness for `c10_update_missing_id` on `kvGood` and an id not in it. -/
theorem c10_witness : updateSyncQueueItem kvGood "zzz" {} = .ok kvGood :=
  c10_update_missing_id kvGood "zzz" {} (by decide)
